import Mathlib

/-!
Shallow embedding of `src/app.py` (hass-temperature-sensor-website): the
unit converter `celsius_to_fahrenheit`, the reading fetcher
`get_sensor_reading`, the in-memory history store `_append_history`, and
the `/api/sensors` aggregator `api_sensors`.

Modelling conventions:
* Python floats are modelled by `PyFloat`: finite values are exact
  rationals, and the IEEE specials `inf`, `-inf`, `nan` are kept as
  symbolic constructors.  Python's `round(x, 2)` is modelled as exact
  decimal rounding with ties to even (banker's rounding, which is what
  `round` does) on the rational value.
* Rational values are computed through `Rat.divInt` on integer
  numerator/denominator pairs so that every definition evaluates by
  kernel reduction; `specRound2` states the same rounding directly by
  the textbook formula over `ℚ`, and the two are proved equal.
* Effects (HTTP, the clock) are passed explicitly: the network is an
  oracle `String → HttpOutcome`, and `time()` is an ambient `now : Nat`.
* The process-wide dict `_history` is modelled extensionally as a map
  `String → Option HistoryBuffer`.
-/

namespace TempSensor

/-- A Python `float` value as this program can observe it: finite values
are carried exactly as rationals; the special values produced by
`float("inf")`, `float("-inf")`, `float("nan")` are symbolic. -/
inductive PyFloat where
  | finite (q : ℚ)
  | inf
  | negInf
  | nan
deriving DecidableEq, Repr

/-- Finiteness of a Python float (true exactly on the `finite` values). -/
def PyFloat.isFinite : PyFloat → Bool
  | .finite _ => true
  | _ => false

/-- Round the fraction `n / d` (any representation with `0 < d`, not
necessarily reduced) to the nearest integer, ties to even — the rounding
Python's builtin `round` performs.  `f` is the floor of the fraction and
`r = n - f * d` its remainder, so the fractional part is `r / d`;
comparing `2 * r` with `d` compares the fractional part with `1/2`. -/
def roundHalfEvenFrac (n d : ℤ) : ℤ :=
  let f := Int.fdiv n d
  let r := n - f * d
  if 2 * r < d then f
  else if d < 2 * r then f + 1
  else if f % 2 = 0 then f else f + 1

/-- Python's `round(x, 2)` on the fraction `n / d` (with `0 < d`):
round `n / d * 100` half-to-even to an integer, then divide by 100. -/
def pyRound2Frac (n d : ℤ) : ℚ := Rat.divInt (roundHalfEvenFrac (n * 100) d) 100

/-- `celsius_to_fahrenheit` from `src/app.py` (lines 216-218):
`round((celsius * 9/5) + 32, 2)`.  For a finite `celsius = num/den` the
argument of `round` is the exact fraction `(9*num + 160*den) / (5*den)`
of `celsius * 9/5 + 32` (see `celsius_to_fahrenheit_spec_formula`).  On
the IEEE specials the Python expression propagates them unchanged
(`inf * 9/5 + 32 = inf`, `round(nan, 2) = nan`), which the non-finite
branches mirror. -/
def celsius_to_fahrenheit : PyFloat → PyFloat
  | .finite c => .finite (pyRound2Frac (9 * c.num + 160 * (c.den : ℤ)) (5 * (c.den : ℤ)))
  | .inf => .inf
  | .negInf => .negInf
  | .nan => .nan

/-- Round-half-to-even to the nearest integer, written directly over `ℚ`
with the floor function, as the spec describes the rounding policy. -/
def specRoundHalfEven (x : ℚ) : ℤ :=
  if x - ⌊x⌋ < 1/2 then ⌊x⌋
  else if (1 : ℚ)/2 < x - ⌊x⌋ then ⌊x⌋ + 1
  else if ⌊x⌋ % 2 = 0 then ⌊x⌋ else ⌊x⌋ + 1

/-- "Result rounded to 2 decimal places", written directly over `ℚ` as
the spec describes it. -/
def specRound2 (x : ℚ) : ℚ := (specRoundHalfEven (x * 100) : ℚ) / 100

/-- Value of a list of decimal digit characters. -/
def digitsToNat (ds : List Char) : ℕ :=
  ds.foldl (fun a c => a * 10 + (c.toNat - 48)) 0

/-- Negate a rational when the flag is set (used to apply a parsed minus
sign; stated via `Rat.divInt` on the numerator so that it evaluates). -/
def ratNegIf (b : Bool) (q : ℚ) : ℚ :=
  if b then Rat.divInt (-q.num) (q.den : ℤ) else q

/-- Exponent-suffix parser used by `pyFloatOfString`: the mantissa so far
is the fraction `num / den`; accepts `[eE][+-]?digits` or the empty
remainder, and rejects all other trailing input. -/
def parseExpPart (num den : ℕ) : List Char → Option ℚ
  | [] => some (Rat.divInt (num : ℤ) (den : ℤ))
  | e :: rest =>
    if e = 'e' ∨ e = 'E' then
      let signed : Bool × List Char :=
        match rest with
        | '+' :: r => (false, r)
        | '-' :: r => (true, r)
        | r => (false, r)
      let ds := signed.2.takeWhile Char.isDigit
      let rest3 := signed.2.dropWhile Char.isDigit
      if ds.isEmpty ∨ rest3 ≠ [] then none
      else
        let k := digitsToNat ds
        some (if signed.1 then Rat.divInt (num : ℤ) ((den * 10 ^ k : ℕ) : ℤ)
              else Rat.divInt ((num * 10 ^ k : ℕ) : ℤ) (den : ℤ))
    else none

/-- Mantissa parser used by `pyFloatOfString`: `digits`, `digits.`,
`.digits` or `digits.digits`, each optionally followed by an exponent;
at least one digit must be present.  `i.f` denotes the fraction
`(i * 10^|f| + f) / 10^|f|`. -/
def parseMantissa (cs : List Char) : Option ℚ :=
  let intPart := cs.takeWhile Char.isDigit
  let rest := cs.dropWhile Char.isDigit
  match rest with
  | '.' :: rest2 =>
    let fracPart := rest2.takeWhile Char.isDigit
    let rest3 := rest2.dropWhile Char.isDigit
    if intPart.isEmpty ∧ fracPart.isEmpty then none
    else
      parseExpPart (digitsToNat intPart * 10 ^ fracPart.length + digitsToNat fracPart)
        (10 ^ fracPart.length) rest3
  | _ =>
    if intPart.isEmpty then none
    else parseExpPart (digitsToNat intPart) 1 rest

/-- CPython's `float(str)` acceptance, as relied upon by
`get_sensor_reading`'s `float(state_value)` (line 152): optional
surrounding whitespace, an optional sign, then either a decimal literal
or the case-insensitive special words `inf`, `infinity`, `nan`.
Idealisations: finite results are exact rationals (no binary rounding or
overflow to `inf`), and CPython's digit-group underscores are not
modelled.  Returns `none` exactly when `float()` raises `ValueError`. -/
def pyFloatOfString (s : String) : Option PyFloat :=
  let stripped :=
    ((s.toList.dropWhile Char.isWhitespace).reverse.dropWhile Char.isWhitespace).reverse
  let signed : Bool × List Char :=
    match stripped with
    | '+' :: r => (false, r)
    | '-' :: r => (true, r)
    | r => (false, r)
  let lower := signed.2.map Char.toLower
  if lower = "inf".toList ∨ lower = "infinity".toList then
    some (if signed.1 then .negInf else .inf)
  else if lower = "nan".toList then
    some .nan
  else
    match parseMantissa signed.2 with
    | some m => some (.finite (ratNegIf signed.1 m))
    | none => none

/-- An attribute mapping from the JSON body.  Modelled as an association
list with distinct keys looked up by first match, which is how the code
reads a Python dict via `attrs.get(key, default)`. -/
abbrev AttrList := List (String × String)

/-- The fields of a parsed `/api/states/<entity>` JSON body that
`get_sensor_reading` reads.  `state` is the raw state string (`none`
when the field is missing); `attributes` is `none` when the field is
missing or JSON `null` (both of which `data.get("attributes", {}) or {}`
turn into `{}`). -/
structure StateBody where
  state : Option String
  last_updated : Option String
  attributes : Option AttrList
deriving DecidableEq, Repr

/-- What the `requests.get` call inside `get_sensor_reading` can produce:
`exn` is any raised `requests.exceptions.RequestException` (timeout,
connection refused, TLS failure); `response status body` is an HTTP
response, where `body = none` models a body on which `response.json()`
raises `ValueError`.  A 200 body that parses to a non-object JSON value
is not representable here; that case, on which the code raises an
uncaught `AttributeError`, is carried by `HttpOutcomeJson` and
`get_sensor_reading_result` below, and `get_sensor_reading_result_agrees`
shows this type covers exactly the exception-free fragment. -/
inductive HttpOutcome where
  | exn
  | response (status : ℕ) (body : Option StateBody)
deriving DecidableEq, Repr

/-- The normalized triple returned by `get_sensor_reading`:
`(temperature, last_updated, attributes)`. -/
structure Reading where
  value : Option PyFloat
  last_updated : Option String
  attributes : AttrList
deriving DecidableEq, Repr

/-- `get_sensor_reading` from `src/app.py` (lines 126-164), with the
network effect passed in as the outcome `net` of its single GET.  In
dummy mode it returns the fixed `(25, "N/A", {...})`; otherwise every
transport exception and every non-200 status yields `(None, None, {})`,
a 200 body that fails to parse yields `(None, None, {})`, and on a
parsed 200 body the state string goes through `float()`
(`pyFloatOfString`), with `last_updated` and `attributes` passed
through (`attributes` defaulted to `{}` when missing or null).
This total function models only the exception-free fragment of the
source: `get_sensor_reading_result` below is the full embedding, whose
`.error` constructor carries the `AttributeError` the code raises on a
200 body parsing to a non-object JSON value, and
`get_sensor_reading_result_agrees` proves the two coincide on every
outcome representable here. -/
def get_sensor_reading (dummy : Bool) (entity_id : String) (net : HttpOutcome) : Reading :=
  if dummy then
    { value := some (.finite 25), last_updated := some "N/A",
      attributes := [("friendly_name", entity_id), ("unit_of_measurement", "°C"),
                     ("icon", "mdi:thermometer")] }
  else
    match net with
    | .exn => { value := none, last_updated := none, attributes := [] }
    | .response status body =>
      if status = 200 then
        match body with
        | none => { value := none, last_updated := none, attributes := [] }
        | some data =>
          { value := data.state.bind pyFloatOfString,
            last_updated := data.last_updated,
            attributes := data.attributes.getD [] }
      else { value := none, last_updated := none, attributes := [] }

/-- A 200 body on which `response.json()` succeeded: either a JSON
object, carrying the fields the code reads, or a valid JSON value that
is not an object (`null`, an array, a string, a number, a boolean) —
a value with no `.get` method. -/
inductive JsonBody where
  | obj (fields : StateBody)
  | nonObject
deriving DecidableEq, Repr

/-- The outcome of the `requests.get` call, refining `HttpOutcome` so
that a 200 body parsing to a non-object JSON value is representable;
`body = none` still models a body on which `response.json()` raises
`ValueError`. -/
inductive HttpOutcomeJson where
  | exn
  | response (status : ℕ) (body : Option JsonBody)
deriving DecidableEq, Repr

/-- `get_sensor_reading` from `src/app.py` (lines 126-164) with its full
failure behaviour: `.ok` is a normal return and `.error` a Python
exception propagating to the caller.  The outer `try` catches only
`requests.exceptions.RequestException` (line 162) and the inner one
only `ValueError` from `response.json()` (line 144), so when a 200
body is valid JSON but not an object, `data.get("state", None)` at
line 148 raises an uncaught `AttributeError`. -/
def get_sensor_reading_result (dummy : Bool) (entity_id : String)
    (net : HttpOutcomeJson) : Except String Reading :=
  if dummy then
    .ok { value := some (.finite 25), last_updated := some "N/A",
          attributes := [("friendly_name", entity_id), ("unit_of_measurement", "°C"),
                         ("icon", "mdi:thermometer")] }
  else
    match net with
    | .exn => .ok { value := none, last_updated := none, attributes := [] }
    | .response status body =>
      if status = 200 then
        match body with
        | none => .ok { value := none, last_updated := none, attributes := [] }
        | some .nonObject => .error "AttributeError"
        | some (.obj data) =>
          .ok { value := data.state.bind pyFloatOfString,
                last_updated := data.last_updated,
                attributes := data.attributes.getD [] }
      else .ok { value := none, last_updated := none, attributes := [] }

/-- Embed the object-only outcomes into the refined outcome type. -/
def liftOutcome : HttpOutcome → HttpOutcomeJson
  | .exn => .exn
  | .response status none => .response status none
  | .response status (some b) => .response status (some (.obj b))

/-- One history point `(int(time()), float(value_c))`. -/
abbrev HistoryPoint := ℕ × PyFloat

/-- One entity's bounded buffer, oldest first (the deque's left end is
the list head). -/
abbrev HistoryBuffer := List HistoryPoint

/-- The process-wide `_history` dict, modelled extensionally:
`store eid = none` means no buffer has been created for `eid` yet. -/
abbrev HistoryStore := String → Option HistoryBuffer

/-- The empty store the process starts with. -/
def emptyStore : HistoryStore := fun _ => none

/-- One `deque(maxlen := cap).append`: append on the right, then drop from
the left anything beyond the capacity.  On every buffer the store can
actually hold (length ≤ cap) the drop removes at most the single oldest
point, exactly as the deque does. -/
def pushBounded (cap : ℕ) (buf : HistoryBuffer) (p : HistoryPoint) : HistoryBuffer :=
  let b := buf ++ [p]
  b.drop (b.length - cap)

/-- `_append_history` from `src/app.py` (lines 118-123): a no-op when the
value is absent; otherwise create the entity's buffer on first use and
append `(ts, v)` under the capacity bound. -/
def appendHistory (cap : ℕ) (store : HistoryStore) (entity_id : String)
    (value_c : Option PyFloat) (ts : ℕ) : HistoryStore :=
  match value_c with
  | none => store
  | some v =>
    let buf := (store entity_id).getD []
    fun e => if e = entity_id then some (pushBounded cap buf (ts, v)) else store e

/-- Record a sequence of `(captured_at, value)` points for one entity:
`_append_history` called once per point, in order, each with a present
value. -/
def recordAll (cap : ℕ) (entity_id : String) (pts : List HistoryPoint)
    (store : HistoryStore) : HistoryStore :=
  pts.foldl (fun st p => appendHistory cap st entity_id (some p.2) p.1) store

/-- One record of the `current` list built by the `/api/sensors` loop
(`src/app.py` lines 256-264). -/
structure SensorRecord where
  entity_id : String
  friendly_name : String
  icon : String
  value_c : Option PyFloat
  value_f : Option PyFloat
  unit : String
  last_updated : Option String
deriving DecidableEq, Repr

/-- The loop body of `api_sensors` (lines 246-264), threading the
history store and the `errors` dict through the configured entities in
order and collecting the `current` records.  `net` is the network
oracle and `now` the ambient value of `int(time())`. -/
def sensorsLoop (dummy : Bool) (cap : ℕ) (net : String → HttpOutcome) (now : ℕ) :
    List String → HistoryStore → (String → Option String) →
    List SensorRecord × (String → Option String) × HistoryStore
  | [], store, errors => ([], errors, store)
  | eid :: rest, store, errors =>
    let r := get_sensor_reading dummy eid (net eid)
    let store2 : HistoryStore :=
      if r.value ≠ none then appendHistory cap store eid r.value now else store
    let errors2 : String → Option String :=
      if r.value ≠ none then errors
      else fun e => if e = eid then some "unavailable" else errors e
    let unit := (r.attributes.lookup "unit_of_measurement").getD "°C"
    let name := (r.attributes.lookup "friendly_name").getD eid
    let icon := (r.attributes.lookup "icon").getD "mdi:thermometer"
    let temp_f := r.value.map celsius_to_fahrenheit
    let rcd : SensorRecord :=
      { entity_id := eid, friendly_name := name, icon := icon,
        value_c := r.value, value_f := temp_f, unit := unit,
        last_updated := r.last_updated }
    let out := sensorsLoop dummy cap net now rest store2 errors2
    (rcd :: out.1, out.2)

/-- The `/api/sensors` JSON payload (line 267): `current`, the `history`
dict comprehension in configured-entity order, the `errors` dict, and
the refresh hint. -/
structure ApiPayload where
  current : List SensorRecord
  history : List (String × HistoryBuffer)
  errors : String → Option String
  refresh_seconds : ℕ

/-- `api_sensors` from `src/app.py` (lines 241-267): run the fetch loop
over the configured entities, then build the payload, whose `history`
maps every configured entity to `list(_history.get(eid, []))`.  Returns
the payload together with the history store the request leaves behind. -/
def api_sensors (dummy : Bool) (cap : ℕ) (net : String → HttpOutcome) (now : ℕ)
    (entities : List String) (store : HistoryStore) (refresh : ℕ) :
    ApiPayload × HistoryStore :=
  let out := sensorsLoop dummy cap net now entities store (fun _ => none)
  ({ current := out.1,
     history := entities.map fun eid => (eid, (out.2.2 eid).getD []),
     errors := out.2.1,
     refresh_seconds := refresh }, out.2.2)

/-- The `current` record that one iteration of the `api_sensors` loop
builds for `eid`: the reading's value, `value_f` derived from it when
present, and `friendly_name` / `unit` / `icon` read from the attributes
with their defaults.  `sensorsLoop_current` proves the loop produces
exactly these records. -/
def readingRecord (dummy : Bool) (net : String → HttpOutcome) (eid : String) : SensorRecord :=
  let r := get_sensor_reading dummy eid (net eid)
  { entity_id := eid,
    friendly_name := (r.attributes.lookup "friendly_name").getD eid,
    icon := (r.attributes.lookup "icon").getD "mdi:thermometer",
    value_c := r.value,
    value_f := r.value.map celsius_to_fahrenheit,
    unit := (r.attributes.lookup "unit_of_measurement").getD "°C",
    last_updated := r.last_updated }

/-- A configured Home Assistant base URL, parsed into the parts
`urllib.parse.urljoin` works with: scheme, authority, and a path that is
either empty or starts with `/`. -/
structure BaseUrl where
  scheme : String
  host : String
  path : String
deriving DecidableEq, Repr

/-- The base URL rendered back to the configured string
`HOME_ASSISTANT_URL`. -/
def BaseUrl.render (b : BaseUrl) : String := b.scheme ++ "://" ++ b.host ++ b.path

/-- Everything of the path up to and including its last `/` (the RFC 3986
merge step drops the base path's last segment). -/
def dropLastSegment (p : String) : String :=
  ⟨(p.toList.reverse.dropWhile (fun c => c ≠ '/')).reverse⟩

/-- `urllib.parse.urljoin(base, rel)` from `src/app.py` line 135,
modelled for the one shape the code uses: `rel` is a relative path
reference (no scheme, no authority, not starting with `/`, no dot
segments).  Per RFC 3986 resolution, an empty base path with an
authority merges to `/rel`, and otherwise the base path's last segment
is replaced by `rel`. -/
def urljoinRel (base : BaseUrl) (rel : String) : String :=
  let merged := if base.path = "" then "/" ++ rel else dropLastSegment base.path ++ rel
  base.scheme ++ "://" ++ base.host ++ merged

/-- The single GET request `get_sensor_reading` issues in live mode
(lines 131-138): its URL and `Authorization` header. -/
structure HttpRequest where
  url : String
  authorization : String
deriving DecidableEq, Repr

/-- The request built by `get_sensor_reading` (lines 131-135):
`urljoin(HOME_ASSISTANT_URL, f"api/states/{entity_id}")` with a
`Bearer` token header. -/
def sensorRequest (base : BaseUrl) (token entity_id : String) : HttpRequest :=
  { url := urljoinRel base ("api/states/" ++ entity_id),
    authorization := "Bearer " ++ token }

/-! ### Rounding: the integer-arithmetic computation agrees with the
textbook formula over `ℚ` -/

theorem floor_divInt_of_pos (n d : ℤ) (hd : 0 < d) :
    ⌊Rat.divInt n d⌋ = n.fdiv d := by
  rw [Rat.divInt_eq_div, Int.fdiv_eq_ediv _ hd.le]
  have h : d = ((d.toNat : ℕ) : ℤ) := (Int.toNat_of_nonneg hd.le).symm
  rw [h]
  exact_mod_cast Rat.floor_intCast_div_natCast n d.toNat

theorem divInt_sub_floor (n d : ℤ) (hd : 0 < d) :
    Rat.divInt n d - ((n.fdiv d : ℤ) : ℚ) = ((n - n.fdiv d * d : ℤ) : ℚ) / ((d : ℤ) : ℚ) := by
  have hdQ : ((d : ℤ) : ℚ) ≠ 0 := by
    exact_mod_cast hd.ne'
  rw [Rat.divInt_eq_div, eq_div_iff hdQ, sub_mul, div_mul_cancel₀ _ hdQ]
  push_cast
  ring

theorem roundHalfEvenFrac_eq_spec (n d : ℤ) (hd : 0 < d) :
    roundHalfEvenFrac n d = specRoundHalfEven (Rat.divInt n d) := by
  have hdQ : (0 : ℚ) < ((d : ℤ) : ℚ) := by exact_mod_cast hd
  have hfloor : ⌊Rat.divInt n d⌋ = n.fdiv d := floor_divInt_of_pos n d hd
  have hfrac := divInt_sub_floor n d hd
  have hcast : ((n - n.fdiv d * d : ℤ) : ℚ) * 2 = ((2 * (n - n.fdiv d * d) : ℤ) : ℚ) := by
    push_cast
    ring
  have h1 : (Rat.divInt n d - ((⌊Rat.divInt n d⌋ : ℤ) : ℚ) < 1/2) ↔
      2 * (n - n.fdiv d * d) < d := by
    rw [hfloor, hfrac, div_lt_div_iff₀ hdQ two_pos, one_mul, hcast]
    exact Int.cast_lt
  have h2 : ((1 : ℚ)/2 < Rat.divInt n d - ((⌊Rat.divInt n d⌋ : ℤ) : ℚ)) ↔
      d < 2 * (n - n.fdiv d * d) := by
    rw [hfloor, hfrac, div_lt_div_iff₀ two_pos hdQ, one_mul, hcast]
    exact Int.cast_lt
  simp only [roundHalfEvenFrac, specRoundHalfEven]
  by_cases hc1 : 2 * (n - n.fdiv d * d) < d
  · rw [if_pos hc1, if_pos (h1.mpr hc1), hfloor]
  · rw [if_neg hc1, if_neg (fun h => hc1 (h1.mp h))]
    by_cases hc2 : d < 2 * (n - n.fdiv d * d)
    · rw [if_pos hc2, if_pos (h2.mpr hc2), hfloor]
    · rw [if_neg hc2, if_neg (fun h => hc2 (h2.mp h)), hfloor]

theorem pyRound2Frac_eq_spec (n d : ℤ) (hd : 0 < d) :
    pyRound2Frac n d = specRound2 (Rat.divInt n d) := by
  have h100 : Rat.divInt n d * 100 = Rat.divInt (n * 100) d := by
    rw [Rat.divInt_eq_div, Rat.divInt_eq_div]
    push_cast
    ring
  rw [pyRound2Frac, specRound2, h100, ← roundHalfEvenFrac_eq_spec _ _ hd,
    Rat.divInt_eq_div]
  norm_num

theorem celsius_arg_eq (c : ℚ) :
    c * 9 / 5 + 32 = Rat.divInt (9 * c.num + 160 * (c.den : ℤ)) (5 * (c.den : ℤ)) := by
  have hden : ((c.den : ℕ) : ℚ) ≠ 0 := by
    exact_mod_cast c.den_pos.ne'
  rw [Rat.divInt_eq_div]
  conv_lhs => rw [← Rat.num_div_den c]
  push_cast
  field_simp
  ring

/-! ### History store lemmas -/

theorem pushBounded_length_le (cap : ℕ) (buf : HistoryBuffer) (p : HistoryPoint) :
    (pushBounded cap buf p).length ≤ cap := by
  simp only [pushBounded, List.length_drop, List.length_append, List.length_cons,
    List.length_nil]
  omega

theorem pushBounded_full (cap : ℕ) (buf : HistoryBuffer) (p : HistoryPoint)
    (hlen : buf.length = cap) (hcap : 0 < cap) :
    pushBounded cap buf p = buf.tail ++ [p] := by
  have h1 : (buf ++ [p]).length - cap = 1 := by
    simp only [List.length_append, List.length_cons, List.length_nil, hlen]
    omega
  simp only [pushBounded, h1]
  rw [List.drop_append_of_le_length (by omega), List.drop_one]

theorem foldl_pushBounded_nil (cap : ℕ) (pts : List HistoryPoint) :
    pts.foldl (pushBounded cap) [] = pts.drop (pts.length - cap) := by
  induction pts using List.reverseRecOn with
  | nil => simp
  | append_singleton ps p ih =>
    rw [List.foldl_append, List.foldl_cons, List.foldl_nil, ih]
    by_cases h : ps.length + 1 ≤ cap
    · have h0 : ps.length - cap = 0 := by omega
      rw [h0, List.drop_zero]
      rfl
    · have e1 : pushBounded cap (ps.drop (ps.length - cap)) p
          = ((ps.drop (ps.length - cap)) ++ [p]).drop 1 := by
        simp only [pushBounded]
        congr 1
        simp only [List.length_append, List.length_drop, List.length_cons, List.length_nil]
        omega
      rw [e1, ← List.drop_append_of_le_length (by omega), List.drop_drop]
      congr 1
      simp only [List.length_append, List.length_cons, List.length_nil]
      omega

theorem appendHistory_self (cap : ℕ) (store : HistoryStore) (eid : String)
    (v : PyFloat) (ts : ℕ) :
    appendHistory cap store eid (some v) ts eid
      = some (pushBounded cap ((store eid).getD []) (ts, v)) := by
  simp [appendHistory]

theorem appendHistory_other (cap : ℕ) (store : HistoryStore) (eid : String)
    (v : Option PyFloat) (ts : ℕ) (e : String) (h : e ≠ eid) :
    appendHistory cap store eid v ts e = store e := by
  cases v with
  | none => rfl
  | some v => simp [appendHistory, h]

theorem recordAll_self (cap : ℕ) (eid : String) :
    ∀ (pts : List HistoryPoint) (store : HistoryStore),
      recordAll cap eid pts store eid =
        if pts.isEmpty then store eid
        else some (pts.foldl (pushBounded cap) ((store eid).getD [])) := by
  intro pts
  induction pts with
  | nil => intro store; simp [recordAll]
  | cons p rest ih =>
    intro store
    show recordAll cap eid rest (appendHistory cap store eid (some p.2) p.1) eid = _
    rw [ih]
    by_cases h : rest.isEmpty
    · have hrest : rest = [] := by
        cases rest with
        | nil => rfl
        | cons q qs => simp at h
      subst hrest
      simp [appendHistory_self]
    · simp [h, appendHistory_self]

/-! ### Loop characterization lemmas -/

theorem sensorsLoop_current (dummy : Bool) (cap : ℕ) (net : String → HttpOutcome) (now : ℕ) :
    ∀ (entities : List String) (store : HistoryStore) (errors : String → Option String),
      (sensorsLoop dummy cap net now entities store errors).1
        = entities.map (readingRecord dummy net) := by
  intro entities
  induction entities with
  | nil => intro store errors; rfl
  | cons eid rest ih =>
    intro store errors
    simp only [sensorsLoop, List.map_cons]
    rw [ih]
    rfl

theorem sensorsLoop_errors (dummy : Bool) (cap : ℕ) (net : String → HttpOutcome) (now : ℕ) :
    ∀ (entities : List String) (store : HistoryStore) (errors : String → Option String)
      (e : String),
      (sensorsLoop dummy cap net now entities store errors).2.1 e =
        if e ∈ entities ∧ (get_sensor_reading dummy e (net e)).value = none
        then some "unavailable" else errors e := by
  intro entities
  induction entities with
  | nil =>
    intro store errors e
    simp [sensorsLoop]
  | cons eid rest ih =>
    intro store errors e
    simp only [sensorsLoop]
    rw [ih]
    by_cases h1 : e ∈ rest ∧ (get_sensor_reading dummy e (net e)).value = none
    · rw [if_pos h1, if_pos ⟨List.mem_cons_of_mem _ h1.1, h1.2⟩]
    · rw [if_neg h1]
      by_cases habs : (get_sensor_reading dummy eid (net eid)).value = none
      · simp only [habs, ne_eq, not_true_eq_false, if_false]
        by_cases h2 : e = eid
        · subst h2
          rw [if_pos rfl, if_pos ⟨List.mem_cons_self _ _, habs⟩]
        · rw [if_neg h2, if_neg ?_]
          intro hc
          rcases List.mem_cons.mp hc.1 with h | h
          · exact h2 h
          · exact h1 ⟨h, hc.2⟩
      · obtain ⟨v, hv⟩ := Option.ne_none_iff_exists'.mp habs
        simp only [hv, ne_eq, reduceCtorEq, not_false_eq_true, if_true]
        rw [if_neg ?_]
        intro hc
        rcases List.mem_cons.mp hc.1 with h | h
        · exact habs (h ▸ hc.2)
        · exact h1 ⟨h, hc.2⟩

theorem sensorsLoop_store_of_absent (dummy : Bool) (cap : ℕ) (net : String → HttpOutcome)
    (now : ℕ) :
    ∀ (entities : List String) (store : HistoryStore) (errors : String → Option String)
      (e : String), (get_sensor_reading dummy e (net e)).value = none →
      (sensorsLoop dummy cap net now entities store errors).2.2 e = store e := by
  intro entities
  induction entities with
  | nil => intro store errors e _; rfl
  | cons eid rest ih =>
    intro store errors e he
    simp only [sensorsLoop]
    rw [ih _ _ e he]
    by_cases habs : (get_sensor_reading dummy eid (net eid)).value = none
    · simp [habs]
    · obtain ⟨v, hv⟩ := Option.ne_none_iff_exists'.mp habs
      simp only [hv, ne_eq, reduceCtorEq, not_false_eq_true, if_true]
      have hne : e ≠ eid := fun h => habs (h ▸ he)
      rw [appendHistory_other _ _ _ _ _ _ hne]

/-- `get_sensor_reading` is exactly the exception-free fragment of the
full embedding: on every outcome whose parsed 200 body is an object or
unparsable (all outcomes of `HttpOutcome`), `get_sensor_reading_result`
raises nothing and returns the total function's triple. -/
theorem get_sensor_reading_result_agrees (dummy : Bool) (eid : String)
    (net : HttpOutcome) :
    get_sensor_reading_result dummy eid (liftOutcome net)
      = .ok (get_sensor_reading dummy eid net) := by
  cases dummy with
  | true => rfl
  | false =>
    cases net with
    | exn => rfl
    | response status body =>
      by_cases h : status = 200
      · subst h
        cases body with
        | none => rfl
        | some b => rfl
      · cases body <;>
          simp [get_sensor_reading_result, get_sensor_reading, liftOutcome, h]

/-! ### Claims -/

/-- C1: a history buffer's length never exceeds the capacity `cap`
(appending preserves the invariant `length ≤ cap` for every entity);
appending to a buffer already holding `cap` points evicts exactly the
oldest point, keeping the rest in order; and recording `cap + 1` present
values with increasing timestamps into an empty capacity-`cap` store
leaves exactly points `2 .. cap+1`, in order. -/
theorem history_capacity_fifo :
    (∀ (cap : ℕ) (store : HistoryStore) (eid : String) (v : Option PyFloat) (ts : ℕ)
       (e : String) (buf : HistoryBuffer),
       (∀ e' b, store e' = some b → b.length ≤ cap) →
       appendHistory cap store eid v ts e = some buf → buf.length ≤ cap) ∧
    (∀ (cap : ℕ) (store : HistoryStore) (eid : String) (v : PyFloat) (ts : ℕ)
       (buf : HistoryBuffer), store eid = some buf → buf.length = cap → 0 < cap →
       appendHistory cap store eid (some v) ts eid = some (buf.tail ++ [(ts, v)])) ∧
    (∀ (cap : ℕ) (eid : String) (pts : List HistoryPoint),
       pts.length = cap + 1 → (pts.map Prod.fst).Chain' (· < ·) →
       recordAll cap eid pts emptyStore eid = some (pts.drop 1)) := by
  refine ⟨?_, ?_, ?_⟩
  · intro cap store eid v ts e buf hinv happ
    cases v with
    | none => exact hinv e buf happ
    | some v =>
      by_cases he : e = eid
      · subst he
        rw [appendHistory_self] at happ
        cases happ
        exact pushBounded_length_le _ _ _
      · rw [appendHistory_other _ _ _ _ _ _ he] at happ
        exact hinv e buf happ
  · intro cap store eid v ts buf hbuf hlen hcap
    rw [appendHistory_self, hbuf, Option.getD_some, pushBounded_full _ _ _ hlen hcap]
  · intro cap eid pts hlen _
    have hne : pts.isEmpty = false := by
      cases pts with
      | nil => simp at hlen
      | cons p rest => rfl
    rw [recordAll_self, hne]
    simp only [Bool.false_eq_true, if_false]
    have : (emptyStore eid).getD [] = [] := rfl
    rw [this, foldl_pushBounded_nil, hlen]
    have h1 : cap + 1 - cap = 1 := by omega
    rw [h1]

/-- C1 witness: the three parts of `history_capacity_fifo` applied at
concrete inputs (capacity 2, entity `"a"`). -/
theorem history_capacity_fifo_witness :
    ([(0, PyFloat.finite 1)] : HistoryBuffer).length ≤ 2 ∧
    appendHistory 2
        (fun e => if e = "a" then some [(0, PyFloat.finite 1), (1, PyFloat.finite 2)] else none)
        "a" (some (PyFloat.finite 3)) 2 "a"
      = some [(1, PyFloat.finite 2), (2, PyFloat.finite 3)] ∧
    recordAll 2 "a" [(0, PyFloat.finite 1), (1, PyFloat.finite 2), (2, PyFloat.finite 3)]
        emptyStore "a"
      = some [(1, PyFloat.finite 2), (2, PyFloat.finite 3)] :=
  ⟨history_capacity_fifo.1 2 emptyStore "a" (some (PyFloat.finite 1)) 0 "a"
      [(0, PyFloat.finite 1)] (fun _ _ hb => Option.noConfusion hb) (by decide),
   history_capacity_fifo.2.1 2
      (fun e => if e = "a" then some [(0, PyFloat.finite 1), (1, PyFloat.finite 2)] else none)
      "a" (PyFloat.finite 3) 2 [(0, PyFloat.finite 1), (1, PyFloat.finite 2)]
      (by decide) (by decide) (by decide),
   history_capacity_fifo.2.2 2 "a"
      [(0, PyFloat.finite 1), (1, PyFloat.finite 2), (2, PyFloat.finite 3)]
      (by decide) (by simp [List.chain'_cons])⟩

/-- C2: the claimed normalization does hold for transport exceptions,
non-200 statuses, unparsable 200 bodies, and parsed 200 objects (where
an absent, empty or non-numeric state gives an absent value while
`last_updated` and `attributes` pass through) — but the claim's "never
propagates an exception to its caller" is false of the code: on a 200
body that is valid JSON and not an object (e.g. `null` or `[]`),
`data.get("state", None)` raises an `AttributeError` that no handler
catches, and it propagates out of `get_sensor_reading`. -/
theorem get_sensor_reading_attribute_error :
    (∀ eid, get_sensor_reading_result false eid (.response 200 (some .nonObject))
        = .error "AttributeError") ∧
    (∀ eid, get_sensor_reading_result false eid .exn
        = .ok ⟨none, none, []⟩) ∧
    (∀ eid (status : ℕ) (body : Option JsonBody), status ≠ 200 →
        get_sensor_reading_result false eid (.response status body)
          = .ok ⟨none, none, []⟩) ∧
    (∀ eid, get_sensor_reading_result false eid (.response 200 none)
        = .ok ⟨none, none, []⟩) ∧
    (∀ eid (b : StateBody),
        get_sensor_reading_result false eid (.response 200 (some (.obj b)))
          = .ok ⟨b.state.bind pyFloatOfString, b.last_updated, b.attributes.getD []⟩) ∧
    (∀ eid (b : StateBody),
      (b.state = none ∨ b.state = some "" ∨
          (∃ s, b.state = some s ∧ pyFloatOfString s = none)) →
      ∃ r, get_sensor_reading_result false eid (.response 200 (some (.obj b))) = .ok r ∧
        r.value = none ∧ r.last_updated = b.last_updated ∧
        r.attributes = b.attributes.getD []) ∧
    pyFloatOfString "" = none := by
  refine ⟨fun eid => rfl, fun eid => rfl, ?_, fun eid => rfl, fun eid b => rfl, ?_, by decide⟩
  · intro eid status body h
    simp [get_sensor_reading_result, h]
  · intro eid b hb
    refine ⟨⟨b.state.bind pyFloatOfString, b.last_updated, b.attributes.getD []⟩,
      rfl, ?_, rfl, rfl⟩
    show b.state.bind pyFloatOfString = none
    rcases hb with h | h | ⟨s, hs, hn⟩
    · rw [h]; rfl
    · rw [h]; decide
    · rw [hs, Option.some_bind, hn]

/-- C2 witness: `get_sensor_reading_attribute_error` applied to the
failing non-object 200 body, to a 500 response, and to a 200 object
body with the sentinel state `"unavailable"`. -/
theorem get_sensor_reading_attribute_error_witness :
    get_sensor_reading_result false "sensor.x" (.response 200 (some .nonObject))
        = .error "AttributeError" ∧
    get_sensor_reading_result false "sensor.x" (.response 500 (some .nonObject))
        = .ok ⟨none, none, []⟩ ∧
    (∃ r, get_sensor_reading_result false "sensor.x"
        (.response 200 (some (.obj ⟨some "unavailable", some "t",
          some [("friendly_name", "N")]⟩))) = .ok r ∧
      r.value = none ∧ r.last_updated = some "t" ∧
      r.attributes = [("friendly_name", "N")]) :=
  ⟨get_sensor_reading_attribute_error.1 "sensor.x",
   get_sensor_reading_attribute_error.2.2.1 "sensor.x" 500 (some .nonObject) (by decide),
   get_sensor_reading_attribute_error.2.2.2.2.2.1 "sensor.x"
      ⟨some "unavailable", some "t", some [("friendly_name", "N")]⟩
      (Or.inr (Or.inr ⟨"unavailable", rfl, by decide⟩))⟩

/-- C3: for every finite float `c`, `celsius_to_fahrenheit c` is
`c * 9/5 + 32` rounded to 2 decimal places (half-to-even), and in
particular 0 °C → 32 °F, 100 °C → 212 °F, −40 °C → −40 °F, and
36.6 °C (= 183/5) → 97.88 °F (= 2447/25). -/
theorem celsius_to_fahrenheit_spec :
    (∀ c : ℚ, celsius_to_fahrenheit (.finite c) = .finite (specRound2 (c * 9 / 5 + 32))) ∧
    celsius_to_fahrenheit (.finite 0) = .finite 32 ∧
    celsius_to_fahrenheit (.finite 100) = .finite 212 ∧
    celsius_to_fahrenheit (.finite (-40)) = .finite (-40) ∧
    celsius_to_fahrenheit (.finite (Rat.divInt 183 5)) = .finite (Rat.divInt 2447 25) := by
  refine ⟨?_, by decide, by decide, by decide, by decide⟩
  intro c
  have hpos : (0 : ℤ) < 5 * (c.den : ℤ) := by
    have := c.den_pos
    omega
  show PyFloat.finite (pyRound2Frac (9 * c.num + 160 * (c.den : ℤ)) (5 * (c.den : ℤ))) = _
  rw [celsius_arg_eq c, pyRound2Frac_eq_spec _ _ hpos]

/-- C4: the `current` list of `/api/sensors` is exactly one record per
configured entity in configured order (also on failed fetches); each
record's `value_f` is the conversion of `value_c` when present and
absent otherwise; and `friendly_name`, `unit`, `icon` fall back to the
entity id, `"°C"`, and the thermometer icon when missing from the
fetched attributes. -/
theorem api_sensors_current_records (dummy : Bool) (cap : ℕ) (net : String → HttpOutcome)
    (now : ℕ) (entities : List String) (store : HistoryStore) (refresh : ℕ) :
    ((api_sensors dummy cap net now entities store refresh).1.current
        = entities.map (readingRecord dummy net)) ∧
    ((api_sensors dummy cap net now entities store refresh).1.current.map
        SensorRecord.entity_id = entities) ∧
    (∀ eid, (readingRecord dummy net eid).entity_id = eid ∧
      (readingRecord dummy net eid).value_c = (get_sensor_reading dummy eid (net eid)).value ∧
      (readingRecord dummy net eid).value_f
        = (get_sensor_reading dummy eid (net eid)).value.map celsius_to_fahrenheit ∧
      (readingRecord dummy net eid).last_updated
        = (get_sensor_reading dummy eid (net eid)).last_updated) ∧
    (∀ eid,
      ((get_sensor_reading dummy eid (net eid)).attributes.lookup "friendly_name" = none →
        (readingRecord dummy net eid).friendly_name = eid) ∧
      ((get_sensor_reading dummy eid (net eid)).attributes.lookup "unit_of_measurement" = none →
        (readingRecord dummy net eid).unit = "°C") ∧
      ((get_sensor_reading dummy eid (net eid)).attributes.lookup "icon" = none →
        (readingRecord dummy net eid).icon = "mdi:thermometer")) := by
  have hcur : (api_sensors dummy cap net now entities store refresh).1.current
      = entities.map (readingRecord dummy net) :=
    sensorsLoop_current dummy cap net now entities store (fun _ => none)
  refine ⟨hcur, ?_, ?_, ?_⟩
  · rw [hcur, List.map_map]
    have : SensorRecord.entity_id ∘ readingRecord dummy net = id := by
      funext eid
      rfl
    rw [this, List.map_id]
  · intro eid
    exact ⟨rfl, rfl, rfl, rfl⟩
  · intro eid
    refine ⟨?_, ?_, ?_⟩ <;> intro h <;> simp [readingRecord, h]

/-- C4 witness: with a network that always raises, one configured
entity yields one record with all three attribute defaults. -/
theorem api_sensors_current_records_witness :
    ((get_sensor_reading false "sensor.a"
        ((fun _ => HttpOutcome.exn) "sensor.a")).attributes.lookup "friendly_name" = none) ∧
    (readingRecord false (fun _ => HttpOutcome.exn) "sensor.a").friendly_name = "sensor.a" ∧
    (api_sensors false 100 (fun _ => HttpOutcome.exn) 0 ["sensor.a"] emptyStore 15).1.current.map
        SensorRecord.entity_id = ["sensor.a"] :=
  ⟨by decide,
   ((api_sensors_current_records false 100 (fun _ => HttpOutcome.exn) 0 ["sensor.a"]
      emptyStore 15).2.2.2 "sensor.a").1 (by decide),
   (api_sensors_current_records false 100 (fun _ => HttpOutcome.exn) 0 ["sensor.a"]
      emptyStore 15).2.1⟩

/-- C5: an entity id is mapped by the `/api/sensors` errors dict exactly
when it is configured and its fetch produced an absent value, and then
always to the fixed marker `"unavailable"`; when every fetch fails, the
errors dict covers every configured entity and every current record
carries an absent value. -/
theorem api_sensors_errors_iff (dummy : Bool) (cap : ℕ) (net : String → HttpOutcome)
    (now : ℕ) (entities : List String) (store : HistoryStore) (refresh : ℕ) :
    (∀ e, (api_sensors dummy cap net now entities store refresh).1.errors e =
      if e ∈ entities ∧ (get_sensor_reading dummy e (net e)).value = none
      then some "unavailable" else none) ∧
    ((∀ e, (get_sensor_reading dummy e (net e)).value = none) →
      (∀ e ∈ entities,
        (api_sensors dummy cap net now entities store refresh).1.errors e
          = some "unavailable") ∧
      (∀ rcd ∈ (api_sensors dummy cap net now entities store refresh).1.current,
        rcd.value_c = none)) := by
  have herr : ∀ e, (api_sensors dummy cap net now entities store refresh).1.errors e =
      if e ∈ entities ∧ (get_sensor_reading dummy e (net e)).value = none
      then some "unavailable" else none :=
    fun e => sensorsLoop_errors dummy cap net now entities store (fun _ => none) e
  refine ⟨herr, ?_⟩
  intro hall
  constructor
  · intro e he
    rw [herr e, if_pos ⟨he, hall e⟩]
  · intro rcd hrcd
    have hcur : (api_sensors dummy cap net now entities store refresh).1.current
        = entities.map (readingRecord dummy net) :=
      sensorsLoop_current dummy cap net now entities store (fun _ => none)
    rw [hcur] at hrcd
    obtain ⟨eid, _, rfl⟩ := List.mem_map.mp hrcd
    show (get_sensor_reading dummy eid (net eid)).value = none
    exact hall eid

/-- C5 witness: a network that answers HTTP 500 for everything puts both
configured entities into the errors dict and leaves both current
values absent. -/
theorem api_sensors_errors_iff_witness :
    (api_sensors false 100 (fun _ => .response 500 none) 0 ["sensor.one", "sensor.two"]
        emptyStore 15).1.errors "sensor.one" = some "unavailable" ∧
    (∀ rcd ∈ (api_sensors false 100 (fun _ => .response 500 none) 0
        ["sensor.one", "sensor.two"] emptyStore 15).1.current, rcd.value_c = none) :=
  ⟨((api_sensors_errors_iff false 100 (fun _ => .response 500 none) 0
      ["sensor.one", "sensor.two"] emptyStore 15).2 (fun _ => rfl)).1 "sensor.one"
      (by decide),
   ((api_sensors_errors_iff false 100 (fun _ => .response 500 none) 0
      ["sensor.one", "sensor.two"] emptyStore 15).2 (fun _ => rfl)).2⟩

/-- C6: the `/api/sensors` history mapping has exactly the configured
entities as keys, in configured order; each entry is the stored buffer
(insertion order, oldest first) of the post-request store, `[]` when the
entity has no buffer; and an entity whose buffer does not exist and
whose fetch fails still has no buffer after the request, so its
snapshot is the empty sequence.  (The code's `list(...)` copy makes the
returned sequence independent of the live buffer; in this pure
embedding every value is immutable.) -/
theorem api_sensors_history_snapshot (dummy : Bool) (cap : ℕ) (net : String → HttpOutcome)
    (now : ℕ) (entities : List String) (store : HistoryStore) (refresh : ℕ) :
    ((api_sensors dummy cap net now entities store refresh).1.history
        = entities.map fun eid =>
            (eid, ((api_sensors dummy cap net now entities store refresh).2 eid).getD [])) ∧
    ((api_sensors dummy cap net now entities store refresh).1.history.map Prod.fst
        = entities) ∧
    (∀ eid ∈ entities, (api_sensors dummy cap net now entities store refresh).2 eid = none →
      (eid, ([] : HistoryBuffer))
        ∈ (api_sensors dummy cap net now entities store refresh).1.history) ∧
    (∀ eid, store eid = none → (get_sensor_reading dummy eid (net eid)).value = none →
      (api_sensors dummy cap net now entities store refresh).2 eid = none) := by
  refine ⟨rfl, ?_, ?_, ?_⟩
  · rw [show (api_sensors dummy cap net now entities store refresh).1.history
        = entities.map fun eid =>
            (eid, ((api_sensors dummy cap net now entities store refresh).2 eid).getD [])
      from rfl, List.map_map]
    have : (Prod.fst ∘ fun eid =>
        (eid, ((api_sensors dummy cap net now entities store refresh).2 eid).getD []))
        = id := by
      funext eid
      rfl
    rw [this, List.map_id]
  · intro eid hmem hnone
    refine List.mem_map.mpr ⟨eid, hmem, ?_⟩
    have hnone' :
        ((sensorsLoop dummy cap net now entities store fun _ => none).2.2 eid) = none :=
      hnone
    rw [hnone']
    rfl
  · intro eid h0 habs
    show (sensorsLoop dummy cap net now entities store (fun _ => none)).2.2 eid = none
    rw [sensorsLoop_store_of_absent dummy cap net now entities store (fun _ => none) eid habs]
    exact h0

/-- C6 witness: with an all-failing upstream and an empty store, the
single configured entity keeps no buffer and its history entry is the
empty sequence. -/
theorem api_sensors_history_snapshot_witness :
    (api_sensors false 100 (fun _ => .response 503 none) 0 ["sensor.x"] emptyStore 15).2
        "sensor.x" = none ∧
    ("sensor.x", ([] : HistoryBuffer))
      ∈ (api_sensors false 100 (fun _ => .response 503 none) 0 ["sensor.x"]
          emptyStore 15).1.history :=
  ⟨(api_sensors_history_snapshot false 100 (fun _ => .response 503 none) 0 ["sensor.x"]
      emptyStore 15).2.2.2 "sensor.x" rfl rfl,
   (api_sensors_history_snapshot false 100 (fun _ => .response 503 none) 0 ["sensor.x"]
      emptyStore 15).2.2.1 "sensor.x" (by decide)
     ((api_sensors_history_snapshot false 100 (fun _ => .response 503 none) 0 ["sensor.x"]
        emptyStore 15).2.2.2 "sensor.x" rfl rfl)⟩

/-- C7: recording an absent value is a no-op on the whole store: the
store map is unchanged (hence every buffer's length is unchanged and no
buffer is created for an entity that has never had a successful
reading). -/
theorem append_history_absent_noop (cap : ℕ) (store : HistoryStore) (eid : String) (ts : ℕ) :
    appendHistory cap store eid none ts = store ∧
    appendHistory cap store eid none ts eid = store eid :=
  ⟨rfl, rfl⟩

/-- C10: recording a present value for one entity leaves every other
entity's keyed buffer (existence, length and contents) untouched. -/
theorem append_history_frame (cap : ℕ) (store : HistoryStore) (eid : String)
    (v : Option PyFloat) (ts : ℕ) (e : String) (h : e ≠ eid) :
    appendHistory cap store eid v ts e = store e :=
  appendHistory_other cap store eid v ts e h

/-- C10 witness: appending for `"a"` leaves `"b"` without a buffer. -/
theorem append_history_frame_witness :
    appendHistory 5 emptyStore "a" (some (PyFloat.finite 1)) 0 "b" = none :=
  append_history_frame 5 emptyStore "a" (some (PyFloat.finite 1)) 0 "b" (by decide)

/-- C8 counterexample: the state string `"inf"` is accepted as numeric
by the fetcher's `float()` (so the reading carries a present value),
that value is not finite, and `/api/sensors` hands it to
`celsius_to_fahrenheit` anyway — the produced record has
`value_f = celsius_to_fahrenheit inf = inf`.  So not every value the
handlers pass to the converter is a finite float. -/
theorem converter_finite_argument_counterexample :
    pyFloatOfString "inf" = some PyFloat.inf ∧
    PyFloat.inf.isFinite = false ∧
    (get_sensor_reading false "sensor.x"
        (.response 200 (some ⟨some "inf", none, none⟩))).value = some PyFloat.inf ∧
    (api_sensors false 100 (fun _ => .response 200 (some ⟨some "inf", none, none⟩)) 0
        ["sensor.x"] emptyStore 15).1.current
      = [{ entity_id := "sensor.x", friendly_name := "sensor.x", icon := "mdi:thermometer",
           value_c := some PyFloat.inf, value_f := some PyFloat.inf, unit := "°C",
           last_updated := none }] :=
  ⟨by decide, rfl, by decide, by decide⟩

/-- C8 (amended): whenever the request handlers invoke the unit
converter, its argument is a present parsed float — `value_f` is exactly
`value_c` mapped through the converter, so the converter is never
applied to an absent value; but the argument need not be finite, since
`float()` accepts `"inf"`/`"nan"` (see the counterexample). -/
theorem converter_called_on_present_values (dummy : Bool) (cap : ℕ)
    (net : String → HttpOutcome) (now : ℕ) (entities : List String)
    (store : HistoryStore) (refresh : ℕ) (rcd : SensorRecord)
    (h : rcd ∈ (api_sensors dummy cap net now entities store refresh).1.current) :
    rcd.value_f = rcd.value_c.map celsius_to_fahrenheit ∧
    (rcd.value_c = none → rcd.value_f = none) := by
  have hcur : (api_sensors dummy cap net now entities store refresh).1.current
      = entities.map (readingRecord dummy net) :=
    sensorsLoop_current dummy cap net now entities store (fun _ => none)
  rw [hcur] at h
  obtain ⟨eid, _, rfl⟩ := List.mem_map.mp h
  refine ⟨rfl, ?_⟩
  intro h0
  show ((get_sensor_reading dummy eid (net eid)).value).map celsius_to_fahrenheit = none
  have h0' : (get_sensor_reading dummy eid (net eid)).value = none := h0
  rw [h0']
  rfl

/-- C8 witness: `converter_called_on_present_values` applied to the one
record of a single-entity request against a failing upstream. -/
theorem converter_called_on_present_values_witness :
    (readingRecord false (fun _ => HttpOutcome.exn) "sensor.x").value_f
      = (readingRecord false (fun _ => HttpOutcome.exn) "sensor.x").value_c.map
          celsius_to_fahrenheit ∧
    ((readingRecord false (fun _ => HttpOutcome.exn) "sensor.x").value_c = none →
      (readingRecord false (fun _ => HttpOutcome.exn) "sensor.x").value_f = none) :=
  converter_called_on_present_values false 100 (fun _ => HttpOutcome.exn) 0 ["sensor.x"]
    emptyStore 15 (readingRecord false (fun _ => HttpOutcome.exn) "sensor.x")
    (by decide)

/-- C9 counterexample: with the configured base URL `"http://ha.local/"`
(a well-formed base whose path is the single slash), `urljoin` yields
`http://ha.local/api/states/sensor.x`, which is not the string
`{base_url}/api/states/{entity_id}` (that would carry a double slash).
So the issued URL is not exactly `{base_url}/api/states/{entity_id}`
for every configured base URL. -/
theorem sensor_request_url_counterexample :
    (sensorRequest ⟨"http", "ha.local", "/"⟩ "token" "sensor.x").url
      ≠ BaseUrl.render ⟨"http", "ha.local", "/"⟩ ++ "/api/states/" ++ "sensor.x" := by
  decide

/-- C9 (amended): the fetcher's single GET goes to
`urljoin(base_url, "api/states/" + entity_id)` with a bearer
`Authorization` header; when the configured base URL has no path
component (`scheme://host`), that URL is exactly
`{base_url}/api/states/{entity_id}`, while a base with a path is
resolved by RFC 3986 merging (its last path segment is replaced). -/
theorem sensor_request_url (base : BaseUrl) (token entity_id : String) :
    (sensorRequest base token entity_id).authorization = "Bearer " ++ token ∧
    (sensorRequest base token entity_id).url
      = urljoinRel base ("api/states/" ++ entity_id) ∧
    (base.path = "" →
      (sensorRequest base token entity_id).url
        = base.render ++ "/api/states/" ++ entity_id) := by
  refine ⟨rfl, rfl, ?_⟩
  intro h
  show urljoinRel base ("api/states/" ++ entity_id) = _
  rw [urljoinRel, BaseUrl.render, h, if_pos rfl, String.append_empty,
    ← String.append_assoc "/" "api/states/" entity_id,
    show ("/" : String) ++ "api/states/" = "/api/states/" by decide,
    ← String.append_assoc]

/-- C9 witness: `sensor_request_url` applied to the pathless base
`http://ha.local`. -/
theorem sensor_request_url_witness :
    (sensorRequest ⟨"http", "ha.local", ""⟩ "token" "sensor.x").url
      = BaseUrl.render ⟨"http", "ha.local", ""⟩ ++ "/api/states/" ++ "sensor.x" :=
  (sensor_request_url ⟨"http", "ha.local", ""⟩ "token" "sensor.x").2.2 rfl

end TempSensor
